import Mathlib

/-
Verification development for the multi-agent-system repository.

The Python sources under app/ are shallowly embedded below. External
collaborators (the language model gateway and the web-search tool) are
modelled as pure text functions `String → String` supplied as parameters,
exactly as the spec treats them (black-box `complete(prompt) -> text`).
Python floats are embedded as exact rationals; Python exceptions as an
explicit error value threaded through `Except` / `Option Exc`.
-/

set_option autoImplicit false

namespace MultiAgent

/-! ## String helpers mirroring Python primitives -/

/-- Membership test on character lists: true when `needle` occurs as a
contiguous substring of the scanned list.  Mirrors Python `needle in hay`. -/
def containsFrom (needle : List Char) : List Char → Bool
  | [] => needle.isEmpty
  | c :: t => needle.isPrefixOf (c :: t) || containsFrom needle t

/-- Python `needle in hay` on strings. -/
def strContains (hay needle : String) : Bool :=
  containsFrom needle.toList hay.toList

/-- Python `str.lower()` (ASCII case folding, as in all queries and model
outputs compared here). -/
def pyLower (s : String) : String :=
  String.mk (s.data.map Char.toLower)

/-- Whitespace stripped from both ends of a character list. -/
def stripList (cs : List Char) : List Char :=
  ((cs.dropWhile Char.isWhitespace).reverse.dropWhile Char.isWhitespace).reverse

/-- Python `str.strip()`. -/
def pyStrip (s : String) : String :=
  String.mk (stripList s.data)

/-- Split a character list at every character satisfying `p` (separators
dropped, empty chunks kept), accumulator-style. -/
def splitWhen (p : Char → Bool) : List Char → List Char → List (List Char)
  | [], acc => [acc.reverse]
  | c :: t, acc =>
    if p c then acc.reverse :: splitWhen p t []
    else splitWhen p t (c :: acc)

/-- Python `content.split("\n\n")`: split at every blank-line boundary,
scanning left to right. -/
def splitBlank : List Char → List Char → List (List Char)
  | [], acc => [acc.reverse]
  | '\n' :: '\n' :: t, acc => acc.reverse :: splitBlank t []
  | c :: t, acc => splitBlank t (c :: acc)

/-- Python `str.split()` with no argument: whitespace-separated words,
empty chunks dropped. -/
def pyWords (t : String) : List String :=
  ((splitWhen Char.isWhitespace t.data []).map String.mk).filter (fun w => w ≠ "")

/-! ## app/models/schemas.py -/

/-- TaskType, a str-valued Enum: members compare equal to their string value. -/
inductive TaskType
  | data_processing
  | decision_making
  | communication
  | general
deriving DecidableEq, Repr

/-- The string value of a TaskType member. -/
def TaskType.val : TaskType → String
  | .data_processing => "data_processing"
  | .decision_making => "decision_making"
  | .communication => "communication"
  | .general => "general"

/-- Python `TaskType(s)`: the member whose value is `s`, or `none` for the
ValueError case. -/
def parseTaskType (s : String) : Option TaskType :=
  if s = "data_processing" then some TaskType.data_processing
  else if s = "decision_making" then some TaskType.decision_making
  else if s = "communication" then some TaskType.communication
  else if s = "general" then some TaskType.general
  else none

/-! ## app/core/exceptions.py and Python runtime errors -/

/-- Exception classes relevant to the boundary: the AgentException hierarchy
from app/core/exceptions.py, plus FastAPI HTTPException and a bucket for
everything unclassified. -/
inductive ExcKind
  | agentException
  | dataProcessingException
  | decisionMakingException
  | communicationException
  | llmException
  | httpException
  | unexpected
deriving DecidableEq, Repr

/-- An exception value: its class and its `str(e)` message. -/
structure Exc where
  kind : ExcKind
  msg : String
deriving DecidableEq, Repr

/-- Whether the class is in the AgentException hierarchy (matched by
`except AgentException` in the middleware). -/
def ExcKind.isAgentException : ExcKind → Bool
  | .agentException => true
  | .dataProcessingException => true
  | .decisionMakingException => true
  | .communicationException => true
  | .llmException => true
  | _ => false

/-- Python `e.__class__.__name__`. -/
def ExcKind.className : ExcKind → String
  | .agentException => "AgentException"
  | .dataProcessingException => "DataProcessingException"
  | .decisionMakingException => "DecisionMakingException"
  | .communicationException => "CommunicationException"
  | .llmException => "LLMException"
  | .httpException => "HTTPException"
  | .unexpected => "UnexpectedError"

/-- Python runtime errors arising inside DecisionMakerAgent when the
selection accumulator is empty.  `str` gives the CPython message text
(CPython quotes the type name NoneType; the quote characters are elided). -/
inductive PyErr
  | indexError
  | typeError
deriving DecidableEq, Repr

def PyErr.str : PyErr → String
  | .indexError => "list index out of range"
  | .typeError => "NoneType object does not support item assignment"

/-! ## app/agents/orchestrator.py -/

/-- OrchestratorAgent.routing_rules keyword mapping, in declaration order
(Python dicts preserve insertion order). -/
def routing_keywords : List (String × TaskType) :=
  [("analyze", TaskType.data_processing),
   ("decide", TaskType.decision_making),
   ("calculate", TaskType.data_processing),
   ("choose", TaskType.decision_making),
   ("communicate", TaskType.communication),
   ("explain", TaskType.communication),
   ("process", TaskType.data_processing)]

/-- The classification prompt built in OrchestratorAgent.determine_task_type.
Literal prompt text is abbreviated throughout this file: prompt contents are
consumed only by the black-box model function and never branched on. -/
def classification_prompt (query : String) : String :=
  "Classify this query into one of these task types: " ++ query

/-- OrchestratorAgent: keyword classification first (first matching keyword in
declaration order wins, membership on the lowercased query), then the model
fallback parsed with TaskType(...), defaulting to data_processing. -/
def determine_task_type (llm : String → String) (query : String) : TaskType :=
  match routing_keywords.find? (fun kw => strContains (pyLower query) kw.1) with
  | some kw => kw.2
  | none =>
    match parseTaskType (pyLower (pyStrip (llm (classification_prompt query)))) with
    | some t => t
    | none => TaskType.data_processing

/-- The routing record built by OrchestratorAgent.determine_routing.
conditional_paths is always the empty mapping in the source and is omitted;
the parallel_agents key is only set when the flag is true, absence modelled
as the empty list. -/
structure Routing where
  primary_path : List String
  parallel_processing : Bool
  parallel_agents : List String
deriving DecidableEq, Repr

def parallel_indicators : List String :=
  ["and", "also", "additionally", "multiple", "various"]

def needs_parallel_processing (query : String) : Bool :=
  parallel_indicators.any (fun w => strContains (pyLower query) w)

/-- OrchestratorAgent.determine_routing: static table keyed on the task-type
string (TaskType is a str-Enum, so the Python comparisons are string
comparisons), plus the advisory parallel-processing flag. -/
def determine_routing (query : String) (task_type : String) : Routing :=
  let primary :=
    if task_type = "data_processing" then
      ["data_processor", "communicator"]
    else if task_type = "decision_making" then
      ["data_processor", "decision_maker", "communicator"]
    else if task_type = "communication" then
      ["communicator"]
    else
      ["data_processor", "decision_maker", "communicator"]
  let par := needs_parallel_processing query
  { primary_path := primary
    parallel_processing := par
    parallel_agents := if par then ["data_processor", "web_searcher"] else [] }

/-! ## app/agents/decision_maker.py -/

/-- The three extracted axis scores; DecisionMakerAgent.extract_scores always
populates all three keys (defaulting a missing axis to 0.5), so a record is a
faithful image of the Python dict. -/
structure Scores where
  feasibility : ℚ
  impact : ℚ
  risk : ℚ
deriving DecidableEq, Repr

/-- One evaluated option record, as built by evaluate_option. -/
structure Evaluation where
  option_id : String
  description : String
  evaluation : String
  scores : Scores
deriving DecidableEq, Repr

/-- The weighted score of make_decision:
`feasibility * 0.3 + impact * 0.4 + (1 - risk) * 0.3`. -/
def weighted_score (sc : Scores) : ℚ :=
  sc.feasibility * (3 / 10) + sc.impact * (4 / 10) + (1 - sc.risk) * (3 / 10)

/-! ### Score extraction (regex `key.*?(\d*\.?\d+)` over the lowered text)

The Python patterns are re.search with a literal keyword, a lazy gap that
cannot cross a newline, and a greedy decimal-number group.  The matcher below
reproduces those semantics for this pattern shape: try each keyword
occurrence left to right; at each, take the earliest decimal token on the
same line; the group text is digits, an optional dot, then digits, with at
least one digit overall. -/

/-- The decimal token `\d*\.?\d+` matched greedily at the head of `cs`,
`none` when the group cannot match here. -/
def numTokenAt (cs : List Char) : Option (List Char) :=
  let d1 := cs.takeWhile Char.isDigit
  let rest1 := cs.dropWhile Char.isDigit
  match rest1 with
  | '.' :: r2 =>
    let d2 := r2.takeWhile Char.isDigit
    if d2.isEmpty then
      if d1.isEmpty then none else some d1
    else
      some (d1 ++ '.' :: d2)
  | _ => if d1.isEmpty then none else some d1

/-- Earliest number token reachable through the lazy gap `.*?`, which cannot
cross a newline. -/
def findNumSameLine : List Char → Option (List Char)
  | [] => none
  | c :: t =>
    if c = '\n' then none
    else
      match numTokenAt (c :: t) with
      | some tok => some tok
      | none => findNumSameLine t

/-- re.search for `key.*?(\d*\.?\d+)`: leftmost keyword occurrence whose line
still holds a number; later occurrences are tried when the earlier ones fail
(regex backtracking over the start position). -/
def searchKeyNum (key : List Char) : List Char → Option (List Char)
  | [] => none
  | c :: t =>
    if key.isPrefixOf (c :: t) then
      match findNumSameLine (List.drop key.length (c :: t)) with
      | some tok => some tok
      | none => searchKeyNum key t
    else searchKeyNum key t

/-- Digit run to a natural number. -/
def digitsToNat (ds : List Char) : Nat :=
  ds.foldl (fun a c => a * 10 + (c.toNat - 48)) 0

/-- Python float(tok) for a matched decimal token, as an exact rational. -/
def parseDec (tok : List Char) : ℚ :=
  let ip := tok.takeWhile (fun c => c ≠ '.')
  let fp := (tok.dropWhile (fun c => c ≠ '.')).drop 1
  (digitsToNat ip : ℚ) + (digitsToNat fp : ℚ) / ((10 : ℚ) ^ fp.length)

/-- Normalization in extract_scores: `if score > 1: score = score / 10`. -/
def normalize_score (v : ℚ) : ℚ :=
  if 1 < v then v / 10 else v

/-- One axis of DecisionMakerAgent.extract_scores: first regex match over the
lowered text normalized, default 0.5 when no match. -/
def extract_axis (key : String) (text : String) : ℚ :=
  match searchKeyNum key.toList (pyLower text).toList with
  | some tok => normalize_score (parseDec tok)
  | none => 1 / 2

/-- DecisionMakerAgent.extract_scores: the three patterns, each searched
independently in the lowered evaluation text. -/
def extract_scores (text : String) : Scores :=
  { feasibility := extract_axis "feasibility" text
    impact := extract_axis "impact" text
    risk := extract_axis "risk" text }

/-! ### Option generation, evaluation and selection -/

/-- `response.content.split("\n\n")[:3]` in generate_options. -/
def option_chunks (content : String) : List String :=
  ((splitBlank content.data []).map String.mk).take 3

/-- Ids `option_1..option_3` paired with the raw chunk (description and
raw_text are the same string in the source). -/
def number_options (chunks : List String) : List (String × String) :=
  chunks.mapIdx (fun i t => ("option_" ++ toString (i + 1), t))

/-- evaluate_option: one model call, scores extracted from its text.
`ctx` stands for the processed-data summary interpolated into the prompt. -/
def evaluate_option (llm : String → String) (ctx : String) (opt : String × String) :
    Evaluation :=
  let resp := llm ("Evaluate this decision option: " ++ opt.2 ++ " Context Data: " ++ ctx)
  { option_id := opt.1, description := opt.2, evaluation := resp
    scores := extract_scores resp }

/-- The selection loop of make_decision: best_option starts at None,
best_score at 0, and an option is taken only on a strict improvement. -/
def make_sel : List Evaluation → Option Evaluation × ℚ → Option Evaluation × ℚ
  | [], acc => acc
  | e :: rest, (b, bs) =>
    if bs < weighted_score e.scores then make_sel rest (some e, weighted_score e.scores)
    else make_sel rest (b, bs)

/-- The decision record assembled by make_decision (validation is attached
later by validate_decision; additional_context lives on the selected option
record in the source and is flattened into a sibling field here). -/
structure Decision where
  selected_option : Option Evaluation
  additional_context : Option String
  confidence : ℚ
  reasoning : String
  alternatives_considered : Nat
  validation : Option String
deriving DecidableEq, Repr

def reasoning_prompt (selected : Evaluation) (count : Nat) : String :=
  "Explain why this option was selected: " ++ selected.description
    ++ " All options considered: " ++ toString count

/-- make_decision.  The second component of the result collects the web-search
queries issued, so that the absence of a supplementary search is expressible.
Failure cases: gather_additional_info indexes evaluations[0] (IndexError on an
empty list), and the below-threshold branch assigns into best_option
(TypeError when the accumulator is still None). -/
def make_decision (search llm : String → String) (evals : List Evaluation) :
    Except PyErr (Decision × List String) :=
  let sel := make_sel evals (none, 0)
  if sel.2 < 7 / 10 then
    match evals with
    | [] => Except.error PyErr.indexError
    | e0 :: _ =>
      let q := "best practices " ++ e0.description
      let info := search q
      match sel.1 with
      | none => Except.error PyErr.typeError
      | some b =>
        Except.ok
          ({ selected_option := some b, additional_context := some info
             confidence := sel.2
             reasoning := llm (reasoning_prompt b evals.length)
             alternatives_considered := evals.length, validation := none }, [q])
  else
    match sel.1 with
    | none => Except.error PyErr.typeError
    | some b =>
      Except.ok
        ({ selected_option := some b, additional_context := none
           confidence := sel.2
           reasoning := llm (reasoning_prompt b evals.length)
           alternatives_considered := evals.length, validation := none }, [])

/-- validate_decision: web search on query plus selected description, then a
model verdict attached to the decision. -/
def validate_decision (search llm : String → String) (query : String) (d : Decision) :
    Except PyErr Decision :=
  match d.selected_option with
  | none => Except.error PyErr.typeError
  | some b =>
    let res := search (query ++ " " ++ b.description)
    let verdict := llm ("Validate this decision with supporting evidence: "
      ++ b.description ++ " Evidence: " ++ res)
    Except.ok { d with validation := some verdict }

/-! ## app/agents/data_processor.py -/

/-- Python regex word characters. -/
def isWordChar (c : Char) : Bool :=
  c.isAlpha || c.isDigit || c = '_'

/-- Word boundary between a word character and the position headed by this
list (end of text counts as non-word). -/
def boundaryAfter : List Char → Bool
  | [] => true
  | r :: _ => !isWordChar r

/-- findall for `\b[A-Z][a-z]+\b`: an uppercase letter at a word boundary,
a maximal nonempty lowercase run, and a word boundary after.  The Boolean
argument records whether the previous character was a word character. -/
def capMatches : Bool → List Char → List (List Char)
  | _, [] => []
  | prevWord, c :: t =>
    if !prevWord && c.isUpper then
      let low := t.takeWhile Char.isLower
      if !low.isEmpty && boundaryAfter (t.dropWhile Char.isLower) then
        (c :: low) :: capMatches true t
      else capMatches true t
    else capMatches (isWordChar c) t

/-- extract_entities: capitalized words, deduplicated via Python `set`
(whose iteration order is unspecified; first-occurrence order is used). -/
def extract_entities (text : String) : List String :=
  ((capMatches false text.toList).map (fun cs => String.mk cs)).dedup

/-- findall for `\b\d+\.?\d*\b` with regex backtracking over the optional
dot and trailing digits, driven by a fuel argument (list length suffices:
every recursive call strictly shortens the scanned list). -/
def numberMatchesF : Nat → Bool → List Char → List (List Char)
  | 0, _, _ => []
  | _, _, [] => []
  | fuel + 1, prevWord, c :: t =>
    if !prevWord && c.isDigit then
      let ds := t.takeWhile Char.isDigit
      let rest1 := t.dropWhile Char.isDigit
      let ints := c :: ds
      match rest1 with
      | '.' :: r2 =>
        let d2 := r2.takeWhile Char.isDigit
        let rest2 := r2.dropWhile Char.isDigit
        if !d2.isEmpty then
          if boundaryAfter rest2 then
            (ints ++ '.' :: d2) :: numberMatchesF fuel true rest2
          else
            (ints ++ ['.']) :: numberMatchesF fuel false r2
        else
          match r2 with
          | r :: _ =>
            if isWordChar r then (ints ++ ['.']) :: numberMatchesF fuel false r2
            else ints :: numberMatchesF fuel true rest1
          | [] => ints :: numberMatchesF fuel true rest1
      | _ =>
        if boundaryAfter rest1 then ints :: numberMatchesF fuel true rest1
        else numberMatchesF fuel true t
    else numberMatchesF fuel (isWordChar c) t

/-- extract_data_points, numbers key.  The analogous date and email findall
extractions are not referenced by any verified property and are elided. -/
def extract_numbers (text : String) : List String :=
  (numberMatchesF (text.toList.length + 1) false text.toList).map (fun cs => String.mk cs)

/-- contains_numerical_data: `re.search(r"\d+", text)`. -/
def contains_numerical_data (text : String) : Bool :=
  text.toList.any Char.isDigit

/-- contains_text_data: more than five whitespace-separated words. -/
def contains_text_data (text : String) : Bool :=
  5 < (pyWords text).length

/-- The processed_data dict assembled by DataProcessorAgent.  `analysis`
holds the model text (the JSON-or-fallback parse result is only ever
interpolated into later prompts and never branched on, so the raw text
stands for it); structured_output is always None in the source and elided. -/
structure ProcessedData where
  raw_query : String
  analysis : String
  entities : List String
  numbers : List String
  numerical_analysis : Option String
  text_analysis : Option String
deriving DecidableEq, Repr

/-! ## app/models/state.py and app/agents/base.py -/

/-- AgentState.  The open metadata mapping is flattened into the typed
fields the stages actually read and write (routing_decision,
routing_reasoning, final_decision, insights, communication_style), each
optional to model key absence; the unused messages channel is elided. -/
structure AgentState where
  query : String
  task_type : String
  processed_data : Option ProcessedData
  decisions : Option (List Evaluation)
  final_output : Option String
  agent_path : List String
  confidence_scores : List (String × ℚ)
  errors : List String
  routing_decision : Option Routing
  routing_reasoning : Option String
  final_decision : Option Decision
  insights : Option (List String)
  communication_style : Option String
deriving DecidableEq, Repr

/-- The initial state built in endpoints.process_query. -/
def init_state (query : String) (task_type : String) : AgentState :=
  { query := query, task_type := task_type, processed_data := none
    decisions := none, final_output := none, agent_path := []
    confidence_scores := [], errors := [], routing_decision := none
    routing_reasoning := none, final_decision := none, insights := none
    communication_style := none }

/-- BaseAgent.execute: the pre-step appends the agent name to agent_path,
then the concrete processing runs (returning its mutated state plus an
optional raised exception); on failure the formatted message is appended to
errors and a plain AgentException wrapping the cause is raised.  The
post-step only logs. -/
def execute (name : String) (proc : AgentState → AgentState × Option Exc)
    (s : AgentState) : AgentState × Option Exc :=
  let s1 := { s with agent_path := s.agent_path ++ [name] }
  match proc s1 with
  | (s2, none) => (s2, none)
  | (s2, some e) =>
    ({ s2 with errors := s2.errors ++ [name ++ ": " ++ e.msg] },
     some { kind := ExcKind.agentException
            msg := "Agent " ++ name ++ " failed: " ++ e.msg })

/-! ## The four stage bodies (each agent's `process`) -/

/-- OrchestratorAgent.process: classify when the task type is general, then
store the routing decision and a model-generated justification. -/
def orchestrator_process (llm : String → String) (s : AgentState) :
    AgentState × Option Exc :=
  let s :=
    if s.task_type = "general" then
      { s with task_type := (determine_task_type llm s.query).val }
    else s
  let routing := determine_routing s.query s.task_type
  let reasoning := llm ("Explain why this routing path was chosen: " ++ s.query)
  ({ s with routing_decision := some routing, routing_reasoning := some reasoning },
   none)

/-- DataProcessorAgent.process: one analysis model call, regex extraction
from the original query, conditional numerical and text analysis calls, then
the fixed 0.85 confidence. -/
def data_processor_process (llm : String → String) (s : AgentState) :
    AgentState × Option Exc :=
  let content := llm ("Analyze this query and extract key data points: " ++ s.query)
  let pd : ProcessedData :=
    { raw_query := s.query
      analysis := content
      entities := extract_entities s.query
      numbers := extract_numbers s.query
      numerical_analysis :=
        if contains_numerical_data s.query then
          some (llm ("Extract and analyze all numerical data from this text: " ++ s.query))
        else none
      text_analysis :=
        if contains_text_data s.query then
          some (llm ("Analyze and structure this text data: " ++ s.query))
        else none }
  ({ s with processed_data := some pd
            confidence_scores := s.confidence_scores ++ [("data_processing", 17 / 20)] },
   none)

/-- DecisionMakerAgent.process: generate up to three options, evaluate each,
select, validate (require_validation is True in decision_criteria), and
record the winning weighted score as the decision_making confidence.  Any
internal failure is wrapped into DecisionMakingException; running without
processed_data dereferences None (state["processed_data"] is initialized to
None, so .get returns None, not the default). -/
def decision_maker_process (search llm : String → String) (s : AgentState) :
    AgentState × Option Exc :=
  match s.processed_data with
  | none =>
    (s, some { kind := ExcKind.decisionMakingException
               msg := "Decision making failed: NoneType object has no attribute get" })
  | some pd =>
    let optionsText := llm ("Based on this query and data, generate 3 possible decision options: "
      ++ s.query ++ " Data Summary: " ++ pd.analysis)
    let evals := (number_options (option_chunks optionsText)).map
      (evaluate_option llm pd.analysis)
    match make_decision search llm evals with
    | Except.error pe =>
      (s, some { kind := ExcKind.decisionMakingException
                 msg := "Decision making failed: " ++ pe.str })
    | Except.ok (d, _log) =>
      match validate_decision search llm s.query d with
      | Except.error pe =>
        (s, some { kind := ExcKind.decisionMakingException
                   msg := "Decision making failed: " ++ pe.str })
      | Except.ok d2 =>
        ({ s with decisions := some evals
                  final_decision := some d2
                  confidence_scores :=
                    s.confidence_scores ++ [("decision_making", d2.confidence)] },
         none)

/-! ## app/agents/communicator.py -/

/-- The fixed category weights of calculate_overall_confidence, in
declaration order. -/
def confidence_weights : List (String × ℚ) :=
  [("data_processing", 3 / 10), ("decision_making", 4 / 10), ("communication", 3 / 10)]

/-- Python `key in scores` / `scores[key]` over the confidence_scores dict,
modelled as an association list with at most one entry per key. -/
def lookupScore (k : String) : List (String × ℚ) → Option ℚ
  | [] => none
  | p :: rest => if p.1 = k then some p.2 else lookupScore k rest

/-- CommunicatorAgent.calculate_overall_confidence: 0.5 on an empty mapping,
else the fixed-weight sum over the categories present renormalized by the
weight actually present (0.5 again if none of the three keys occur). -/
def calculate_overall_confidence (scores : List (String × ℚ)) : ℚ :=
  if scores.isEmpty then 1 / 2
  else
    let acc := confidence_weights.foldl
      (fun acc kw =>
        match lookupScore kw.1 scores with
        | some v => (acc.1 + v * kw.2, acc.2 + kw.2)
        | none => acc)
      ((0 : ℚ), (0 : ℚ))
    if 0 < acc.2 then acc.1 / acc.2 else 1 / 2

/-- Three-tier confidence badge (the source uses traffic-light emoji). -/
def confidence_badge (q : ℚ) : String :=
  if 4 / 5 < q then "high" else if 3 / 5 < q then "medium" else "low"

/-- Python `f"{q:.0%}"` value, rounded to whole percent. -/
def pctString (q : ℚ) : String :=
  toString (round (q * 100)) ++ "%"

/-- summarize_data: entities capped at 5, numbers capped at 3, presence
flags for the two optional analyses. -/
def summarize_data (pd : ProcessedData) : String :=
  let parts :=
    (if pd.entities ≠ [] then
      ["- Entities Found: " ++ String.intercalate ", " (pd.entities.take 5)] else [])
    ++ (if pd.numbers ≠ [] then
      ["- Numbers: " ++ String.intercalate ", " (pd.numbers.take 3)] else [])
    ++ (match pd.numerical_analysis with
        | some _ => ["- Numerical Analysis: Available"] | none => [])
    ++ (match pd.text_analysis with
        | some _ => ["- Text Analysis: Completed"] | none => [])
  if parts = [] then "No specific data points extracted"
  else String.intercalate "\n" parts

/-- format_output: header, confidence badge, answer body, optional data and
decision summaries, trailing agent path. -/
def format_output (message : String) (s : AgentState) : String :=
  let conf := calculate_overall_confidence s.confidence_scores
  let head := ["## Response to: " ++ s.query ++ "\n",
    "Confidence Level: " ++ confidence_badge conf ++ " " ++ pctString conf ++ "\n",
    "### Answer", message]
  let dataPart :=
    match s.processed_data with
    | some pd => ["\n### Key Data Points", summarize_data pd]
    | none => []
  let decisionPart :=
    match s.final_decision with
    | some d =>
      ["\n### Decision Summary",
       "- Selected Option: " ++ ((d.selected_option.map Evaluation.description).getD "N/A"),
       "- Confidence: " ++ pctString d.confidence]
    | none => []
  let tail := ["\n### Processing Path",
    "Agents involved: " ++ String.intercalate " -> " s.agent_path]
  String.intercalate "\n" (head ++ dataPart ++ decisionPart ++ tail)

/-- Leading strip of the characters `-` and the bullet dot, as in
`line.lstrip("-•")`. -/
def lstripSet (bad : List Char) : List Char → List Char
  | [] => []
  | c :: t => if bad.contains c then lstripSet bad t else c :: t

/-- generate_insights parsing: keep nonempty lines starting with a dash or
bullet, strip the marker and surrounding whitespace. -/
def parse_insights (content : String) : List String :=
  (splitWhen (fun c => c = '\n') content.data []).filterMap (fun lineCs =>
    match stripList lineCs with
    | [] => none
    | c :: rest =>
      if c = '-' ∨ c = '•' then
        some (String.mk (stripList (lstripSet ['-', '•'] (c :: rest))))
      else none)

/-- CommunicatorAgent.process: style selection coerced to the known set,
message and formatting, insights capped at 5, fixed 0.9 confidence. -/
def communicator_process (llm : String → String) (s : AgentState) :
    AgentState × Option Exc :=
  let styleRaw := pyLower (pyStrip (llm ("Determine the best communication style for this response: "
    ++ s.query ++ " Task Type: " ++ s.task_type)))
  let style :=
    if ["technical", "executive", "casual", "detailed"].contains styleRaw then styleRaw
    else "detailed"
  let message := llm ("Create a " ++ style ++ " response for this query: " ++ s.query)
  let formatted := format_output message s
  let insightsText := llm ("Based on this processing, generate 3-5 actionable insights: "
    ++ s.query)
  let insights := (parse_insights insightsText).take 5
  ({ s with final_output := some formatted
            communication_style := some style
            insights := some insights
            confidence_scores := s.confidence_scores ++ [("communication", 9 / 10)] },
   none)

/-! ## app/services/graph_builder.py -/

inductive Node
  | orchestrator
  | data_processor
  | decision_maker
  | communicator
  | finish
deriving DecidableEq, Repr

/-- The conditional-edge target mappings of GraphBuilder.build: both maps
contain exactly the three stage names below, so the fallback is unreachable
for the routing functions of the source. -/
def parse_node (s : String) : Node :=
  if s = "data_processor" then Node.data_processor
  else if s = "decision_maker" then Node.decision_maker
  else if s = "communicator" then Node.communicator
  else Node.finish

/-- GraphBuilder.route_from_orchestrator. -/
def route_from_orchestrator (s : AgentState) : String :=
  match (s.routing_decision.map Routing.primary_path).getD [] with
  | next :: _ => next
  | [] => "data_processor"

/-- GraphBuilder.route_from_data_processor. -/
def route_from_data_processor (s : AgentState) : String :=
  if s.task_type = "decision_making" || strContains (pyLower s.query) "decision" then
    "decision_maker"
  else "communicator"

/-- One graph step: run the node through BaseAgent.execute and compute the
next node (decision_maker always transitions to communicator, communicator
to the end marker). -/
def step (llm search : String → String) (n : Node) (s : AgentState) :
    (AgentState × Option Exc) × Node :=
  match n with
  | Node.orchestrator =>
    let r := execute "Orchestrator" (orchestrator_process llm) s
    (r, parse_node (route_from_orchestrator r.1))
  | Node.data_processor =>
    let r := execute "DataProcessor" (data_processor_process llm) s
    (r, parse_node (route_from_data_processor r.1))
  | Node.decision_maker =>
    (execute "DecisionMaker" (decision_maker_process search llm) s, Node.communicator)
  | Node.communicator =>
    (execute "Communicator" (communicator_process llm) s, Node.finish)
  | Node.finish => ((s, none), Node.finish)

/-- Sequential graph execution with the langgraph recursion limit as fuel;
a raised stage exception aborts the whole run. -/
def run_from (llm search : String → String) :
    Nat → Node → AgentState → Except Exc AgentState
  | 0, _, _ => Except.error { kind := ExcKind.unexpected, msg := "GraphRecursionError" }
  | fuel + 1, n, s =>
    if n = Node.finish then Except.ok s
    else
      match step llm search n s with
      | ((_, some e), _) => Except.error e
      | ((s2, none), n2) => run_from llm search fuel n2 s2

/-- graph.ainvoke: START → orchestrator, default recursion limit 25. -/
def run_graph (llm search : String → String) (s : AgentState) :
    Except Exc AgentState :=
  run_from llm search 25 Node.orchestrator s

def graph_ok (r : Except Exc AgentState) : Bool :=
  match r with
  | Except.ok _ => true
  | Except.error _ => false

def ok_path (r : Except Exc AgentState) : List String :=
  match r with
  | Except.ok s => s.agent_path
  | Except.error _ => []

/-! ## app/api/endpoints.py and app/api/middleware.py -/

/-- The executor-level response confidence of process_query: unweighted mean
of all recorded scores, 0.5 when the mapping is empty. -/
def response_confidence (scores : List (String × ℚ)) : ℚ :=
  if scores.isEmpty then 1 / 2
  else ((scores.map Prod.snd).sum) / (scores.length : ℚ)

/-- The JSON error body produced at the boundary. -/
structure HttpResponse where
  status : Nat
  error : String
  error_type : String
deriving DecidableEq, Repr

/-- error_handler_middleware: known AgentException classes map to 400 with
the exception text and class name, everything else to an opaque 500. -/
def error_handler_middleware (e : Exc) : HttpResponse :=
  if e.kind.isAgentException then
    { status := 400, error := e.msg, error_type := e.kind.className }
  else
    { status := 500, error := "Internal server error", error_type := "UnexpectedError" }

/-- endpoints.process_query, lines 71-73: every exception from the graph is
caught and re-raised as HTTPException(status_code=500, detail=str(e)). -/
def endpoint_exception_wrap (e : Exc) : Exc :=
  { kind := ExcKind.httpException, msg := e.msg }

/-- The boundary response for an exception escaping the graph: the endpoint
first converts it to HTTPException(500, str(e)); the middleware then sees a
non-AgentException.  (Under FastAPI the HTTPException is answered by the
framework handler as status 500 with str(e) as the detail body; either way
the status is 500.) -/
def boundary_response_for_failure (e : Exc) : HttpResponse :=
  error_handler_middleware (endpoint_exception_wrap e)

/-! ## Derived notions and concrete fixtures used by the verification -/

/-- Maximum weighted score over a list, folded from a seed (the seed 0 is
the loop initialization of make_decision; a seed equal to the head score
gives the plain maximum over the options). -/
def score_fold (l : List Evaluation) (c : ℚ) : ℚ :=
  l.foldl (fun a e => max a (weighted_score e.scores)) c

/-- The selection rule exactly as the claim words it: the option with the
strictly highest weighted score, the first-evaluated (lowest-index) option
winning ties.  Stated from the claim wording for comparison against
make_sel, the loop of the source. -/
def claimed_selection : List Evaluation → Option Evaluation
  | [] => none
  | e :: rest =>
    (e :: rest).find?
      (fun x => decide (weighted_score x.scores
        = score_fold rest (weighted_score e.scores)))

/-- An option whose extracted scores give weighted score exactly 0. -/
def zero_eval : Evaluation :=
  { option_id := "option_1", description := "sole option"
    evaluation := "feasibility 0 impact 0 risk 1", scores := { feasibility := 0, impact := 0, risk := 1 } }

/-- Two options with the identical weighted score 0.65. -/
def tie_eval_a : Evaluation :=
  { option_id := "option_1", description := "first"
    evaluation := "ev", scores := { feasibility := 1 / 2, impact := 1 / 2, risk := 0 } }

def tie_eval_b : Evaluation :=
  { option_id := "option_2", description := "second"
    evaluation := "ev", scores := { feasibility := 1 / 2, impact := 1 / 2, risk := 0 } }

/-- An option with weighted score 0.5, strictly between 0 and the 0.7
threshold. -/
def low_eval : Evaluation :=
  { option_id := "option_1", description := "sole"
    evaluation := "e", scores := { feasibility := 1 / 2, impact := 1 / 2, risk := 1 / 2 } }

/-- An option with weighted score 0.9, above the 0.7 threshold. -/
def hi_eval : Evaluation :=
  { option_id := "option_1", description := "sole"
    evaluation := "e", scores := { feasibility := 9 / 10, impact := 9 / 10, risk := 1 / 10 } }

/-- A model stub whose every evaluation parses to scores (0, 0, 1). -/
def zero_llm : String → String := fun _ => "feasibility 0 impact 0 risk 1"

/-- A model stub whose every evaluation parses to scores (0.9, 0.9, 0). -/
def good_llm : String → String := fun _ => "feasibility 9 impact 9 risk 0"

def stub_search : String → String := fun _ => "search results"

/-- A processed_data record as left by the DataProcessor. -/
def dm_pd : ProcessedData :=
  { raw_query := "pick one", analysis := "a", entities := [], numbers := []
    numerical_analysis := none, text_analysis := none }

/-- A state as it reaches the DecisionMaker after data processing. -/
def dm_state : AgentState :=
  { init_state "pick one" "decision_making" with processed_data := some dm_pd }

/-- The single option record the DecisionMaker builds from the zero_llm
output: its evaluation text parses to scores (0, 0, 1). -/
def parsed_zero_eval : Evaluation :=
  { option_id := "option_1", description := "feasibility 0 impact 0 risk 1"
    evaluation := "feasibility 0 impact 0 risk 1"
    scores := { feasibility := 0, impact := 0, risk := 1 } }

/-- A stage body that raises DecisionMakingException("boom") without
mutating the state, standing for any process that fails. -/
def failing_proc : AgentState → AgentState × Option Exc :=
  fun t => (t, some { kind := ExcKind.decisionMakingException, msg := "boom" })

/-- The single option record the DecisionMaker builds from the good_llm
output: its evaluation text parses to scores (0.9, 0.9, 0). -/
def good_eval : Evaluation :=
  { option_id := "option_1", description := "feasibility 9 impact 9 risk 0"
    evaluation := "feasibility 9 impact 9 risk 0"
    scores := { feasibility := 9 / 10, impact := 9 / 10, risk := 0 } }

/-- The decision make_decision produces from good_eval: weighted score 0.93,
above the 0.7 threshold, so no supplementary context. -/
def good_decision : Decision :=
  { selected_option := some good_eval, additional_context := none
    confidence := 93 / 100, reasoning := "feasibility 9 impact 9 risk 0"
    alternatives_considered := 1, validation := none }

/-- One step of the weight fold in calculate_overall_confidence, split out
to state its unfolding lemma. -/
def optAdd (acc : ℚ × ℚ) (w : ℚ) : Option ℚ → ℚ × ℚ
  | some v => (acc.1 + v * w, acc.2 + w)
  | none => acc

/-! ## Helper lemmas about the selection loop -/

theorem score_fold_cons (e : Evaluation) (l : List Evaluation) (c : ℚ) :
    score_fold (e :: l) c = score_fold l (max c (weighted_score e.scores)) := rfl

theorem le_score_fold : ∀ (l : List Evaluation) (c : ℚ), c ≤ score_fold l c
  | [], c => le_refl c
  | e :: t, c => by
    rw [score_fold_cons]
    exact le_trans (le_max_left _ _) (le_score_fold t _)

theorem mem_le_score_fold : ∀ (l : List Evaluation) (c : ℚ) (x : Evaluation),
    x ∈ l → weighted_score x.scores ≤ score_fold l c
  | e :: t, c, x, hx => by
    rw [score_fold_cons]
    rcases List.mem_cons.mp hx with h | h
    · subst h
      exact le_trans (le_max_right _ _) (le_score_fold t _)
    · exact mem_le_score_fold t _ x h

theorem score_fold_of_le : ∀ (l : List Evaluation) (c : ℚ),
    (∀ x ∈ l, weighted_score x.scores ≤ c) → score_fold l c = c
  | [], _, _ => rfl
  | e :: t, c, h => by
    rw [score_fold_cons, max_eq_left (h e (List.mem_cons_self e t))]
    exact score_fold_of_le t c (fun x hx => h x (List.mem_cons_of_mem e hx))

theorem score_fold_max : ∀ (l : List Evaluation) (c d : ℚ),
    score_fold l (max c d) = max (score_fold l c) d
  | [], _, _ => rfl
  | e :: t, c, d => by
    rw [score_fold_cons, score_fold_cons, max_assoc, max_comm d (weighted_score e.scores),
      ← max_assoc]
    exact score_fold_max t (max c (weighted_score e.scores)) d

theorem make_sel_cons (e : Evaluation) (l : List Evaluation) (b : Option Evaluation)
    (bs : ℚ) :
    make_sel (e :: l) (b, bs)
      = if bs < weighted_score e.scores then make_sel l (some e, weighted_score e.scores)
        else make_sel l (b, bs) := rfl

theorem make_sel_snd : ∀ (l : List Evaluation) (b : Option Evaluation) (bs : ℚ),
    (make_sel l (b, bs)).2 = score_fold l bs
  | [], _, _ => rfl
  | e :: t, b, bs => by
    rw [make_sel_cons, score_fold_cons]
    by_cases h : bs < weighted_score e.scores
    · rw [if_pos h, make_sel_snd t _ _, max_eq_right (le_of_lt h)]
    · rw [if_neg h, make_sel_snd t _ _, max_eq_left (not_lt.mp h)]

theorem make_sel_stay : ∀ (l : List Evaluation) (b : Option Evaluation) (bs : ℚ),
    (∀ x ∈ l, weighted_score x.scores ≤ bs) → make_sel l (b, bs) = (b, bs)
  | [], _, _, _ => rfl
  | e :: t, b, bs, h => by
    rw [make_sel_cons, if_neg (not_lt.mpr (h e (List.mem_cons_self e t)))]
    exact make_sel_stay t b bs (fun x hx => h x (List.mem_cons_of_mem e hx))

/-- The strict-improvement loop selects exactly the first option attaining
the running maximum, provided some option strictly beats the seed score. -/
theorem make_sel_fst : ∀ (l : List Evaluation) (b : Option Evaluation) (bs : ℚ),
    (∃ x ∈ l, bs < weighted_score x.scores) →
    (make_sel l (b, bs)).1
      = l.find? (fun e => decide (weighted_score e.scores = score_fold l bs))
  | [], _, _, hex => absurd hex (by simp)
  | e :: t, b, bs, hex => by
    rw [make_sel_cons]
    simp only [score_fold_cons]
    by_cases h1 : bs < weighted_score e.scores
    · rw [if_pos h1]
      simp only [max_eq_right (le_of_lt h1)]
      by_cases h2 : ∃ x ∈ t, weighted_score e.scores < weighted_score x.scores
      · have hlt : weighted_score e.scores < score_fold t (weighted_score e.scores) := by
          obtain ⟨x, hx, hxe⟩ := h2
          exact lt_of_lt_of_le hxe (mem_le_score_fold t _ x hx)
        rw [List.find?_cons_of_neg _ (by simpa using ne_of_lt hlt)]
        exact make_sel_fst t (some e) (weighted_score e.scores) h2
      · push_neg at h2
        rw [make_sel_stay t (some e) _ h2]
        have hfold : score_fold t (weighted_score e.scores) = weighted_score e.scores :=
          score_fold_of_le t _ h2
        simp only [hfold]
        rw [List.find?_cons_of_pos _ (by simp)]
    · rw [if_neg h1]
      obtain ⟨x, hx, hbs⟩ := hex
      rcases List.mem_cons.mp hx with rfl | hxt
      · exact absurd hbs h1
      · have hex2 : ∃ y ∈ t, bs < weighted_score y.scores := ⟨x, hxt, hbs⟩
        have hlt : bs < score_fold t bs :=
          lt_of_lt_of_le hbs (mem_le_score_fold t bs x hxt)
        simp only [max_eq_left (not_lt.mp h1)]
        rw [List.find?_cons_of_neg _ ?_]
        · exact make_sel_fst t b bs hex2
        · simp only [decide_eq_true_eq]
          intro hh
          exact absurd (lt_of_lt_of_le hlt (hh ▸ not_lt.mp h1)) (lt_irrefl bs)

/-- Projection of determine_routing onto the static table. -/
theorem determine_routing_primary (q tt : String) :
    (determine_routing q tt).primary_path
      = if tt = "data_processing" then ["data_processor", "communicator"]
        else if tt = "decision_making" then
          ["data_processor", "decision_maker", "communicator"]
        else if tt = "communication" then ["communicator"]
        else ["data_processor", "decision_maker", "communicator"] := rfl

/-! ## Claim theorems -/

/-- C2 (code_bug evidence): the claim says a known AgentError category is
answered with client-error status 400 carrying its message and type, and
anything else with an opaque 500.  The endpoint body catches every
exception, including AgentException, and re-raises HTTPException(500,
str(e)); the boundary therefore answers status 500 for an AgentException
escaping the graph.  The final conjunct shows that the middleware alone
implements exactly the claimed 400 mapping, which the endpoint preempts. -/
theorem claim_C2 :
    boundary_response_for_failure
        { kind := ExcKind.agentException, msg := "Agent DecisionMaker failed: boom" }
      = { status := 500, error := "Internal server error", error_type := "UnexpectedError" }
    ∧ (boundary_response_for_failure
        { kind := ExcKind.agentException, msg := "Agent DecisionMaker failed: boom" }).status
        ≠ 400
    ∧ error_handler_middleware
        { kind := ExcKind.agentException, msg := "Agent DecisionMaker failed: boom" }
      = { status := 400, error := "Agent DecisionMaker failed: boom"
          error_type := "AgentException" } := by
  refine ⟨rfl, by decide, rfl⟩

/-- C3: the routing plan equals the static table exactly in all four cases;
any task type other than the three named ones (including unresolved general)
takes the default plan. -/
theorem claim_C3 :
    (∀ q : String, (determine_routing q "data_processing").primary_path
        = ["data_processor", "communicator"])
    ∧ (∀ q : String, (determine_routing q "decision_making").primary_path
        = ["data_processor", "decision_maker", "communicator"])
    ∧ (∀ q : String, (determine_routing q "communication").primary_path
        = ["communicator"])
    ∧ (∀ q tt : String, tt ≠ "data_processing" → tt ≠ "decision_making" →
        tt ≠ "communication" →
        (determine_routing q tt).primary_path
          = ["data_processor", "decision_maker", "communicator"]) := by
  refine ⟨fun q => rfl, fun q => rfl, fun q => rfl, fun q tt h1 h2 h3 => ?_⟩
  rw [determine_routing_primary, if_neg h1, if_neg h2, if_neg h3]

/-- Witness for C3: the default row applied at the unresolved general case. -/
theorem claim_C3_witness :
    "general" ≠ "data_processing"
    ∧ (determine_routing "hello" "general").primary_path
        = ["data_processor", "decision_maker", "communicator"] :=
  ⟨by decide,
   (claim_C3.2.2.2) "hello" "general" (by decide) (by decide) (by decide)⟩

/-- C4: keyword classification is first-match in mapping declaration order
(a query containing analyze resolves to data_processing whatever else it
contains, and in particular the analyze-and-decide example does); when no
keyword matches and the model text does not parse to a known TaskType, the
classification defaults to data_processing. -/
theorem claim_C4 :
    (∀ (llm : String → String) (q : String),
      strContains (pyLower q) "analyze" = true →
      determine_task_type llm q = TaskType.data_processing)
    ∧ determine_task_type (fun _ => "communication") "Please analyze and decide this"
        = TaskType.data_processing
    ∧ (∀ (llm : String → String) (q : String),
        (∀ kw ∈ routing_keywords, strContains (pyLower q) kw.1 = false) →
        parseTaskType (pyLower (pyStrip (llm (classification_prompt q)))) = none →
        determine_task_type llm q = TaskType.data_processing) := by
  refine ⟨?_, by decide, ?_⟩
  · intro llm q h
    have hfind : routing_keywords.find? (fun kw => strContains (pyLower q) kw.1)
        = some ("analyze", TaskType.data_processing) := by
      have h2 : (fun kw : String × TaskType => strContains (pyLower q) kw.1)
          ("analyze", TaskType.data_processing) = true := h
      exact List.find?_cons_of_pos _ h2
    unfold determine_task_type
    rw [hfind]
  · intro llm q hk hp
    have hnone : routing_keywords.find? (fun kw => strContains (pyLower q) kw.1) = none :=
      List.find?_eq_none.mpr (fun kw hkw => by simp [hk kw hkw])
    unfold determine_task_type
    rw [hnone, hp]

/-- Witness for C4: the first-match branch at a query containing both
analyze and decide, and the fallback-default branch at a keyword-free query
with unparseable model text. -/
theorem claim_C4_witness :
    determine_task_type (fun _ => "communication") "analyze and decide"
        = TaskType.data_processing
    ∧ determine_task_type (fun _ => "no idea") "hello there"
        = TaskType.data_processing :=
  ⟨claim_C4.1 (fun _ => "communication") "analyze and decide" (by decide),
   claim_C4.2.2 (fun _ => "no idea") "hello there" (by decide) (by decide)⟩

/-- C5 (amended): whenever some option has a strictly positive weighted
score, the DecisionMaker selection computes scores by the stated formula and
picks exactly the option the claim describes: the one with the strictly
highest weighted score, first-evaluated winning ties.  (As stated the claim
fails when every weighted score is at most 0: the strict comparison against
the initial best score 0 then selects nothing; see the counterexample.) -/
theorem claim_C5 (evals : List Evaluation)
    (h : ∃ e ∈ evals, 0 < weighted_score e.scores) :
    (∀ sc : Scores, weighted_score sc
        = 3 / 10 * sc.feasibility + 4 / 10 * sc.impact + 3 / 10 * (1 - sc.risk))
    ∧ (make_sel evals (none, 0)).1 = claimed_selection evals
    ∧ (make_sel evals (none, 0)).2 = score_fold evals 0 := by
  refine ⟨fun sc => by rw [weighted_score]; ring, ?_, make_sel_snd evals none 0⟩
  cases evals with
  | nil => simp at h
  | cons e rest =>
    have hpos : 0 < score_fold rest (weighted_score e.scores) := by
      obtain ⟨x, hx, hp⟩ := h
      rcases List.mem_cons.mp hx with rfl | hxt
      · exact lt_of_lt_of_le hp (le_score_fold _ _)
      · exact lt_of_lt_of_le hp (mem_le_score_fold _ _ x hxt)
    have hm : score_fold (e :: rest) 0 = score_fold rest (weighted_score e.scores) := by
      rw [score_fold_cons, max_comm, score_fold_max, max_eq_left hpos.le]
    rw [make_sel_fst (e :: rest) none 0 h]
    simp only [hm, claimed_selection]

/-- Counterexample for C5 as frozen: a single option of weighted score 0
(scores 0, 0, 1).  The claimed rule selects it (it trivially has the highest
weighted score), but the loop of the source selects nothing because the
comparison against the initial best score 0 is strict. -/
theorem claim_C5_counterexample :
    weighted_score zero_eval.scores = 0
    ∧ (make_sel [zero_eval] (none, 0)).1 = none
    ∧ claimed_selection [zero_eval] = some zero_eval
    ∧ (make_sel [zero_eval] (none, 0)).1 ≠ claimed_selection [zero_eval] := by
  have hw : weighted_score zero_eval.scores = 0 := by
    norm_num [weighted_score, zero_eval]
  have hsel : (make_sel [zero_eval] (none, 0)).1 = none := by
    rw [make_sel_cons, hw, if_neg (lt_irrefl (0 : ℚ))]
    rfl
  have hcl : claimed_selection [zero_eval] = some zero_eval := by
    simp only [claimed_selection]
    exact List.find?_cons_of_pos _ (by simp [score_fold])
  refine ⟨hw, hsel, hcl, ?_⟩
  rw [hsel, hcl]
  simp

/-- Witness for C5: the spec tie example, two options both scoring 0.65;
the loop agrees with the claimed rule and picks the first-evaluated one. -/
theorem claim_C5_witness :
    weighted_score tie_eval_a.scores = 13 / 20
    ∧ weighted_score tie_eval_b.scores = 13 / 20
    ∧ (make_sel [tie_eval_a, tie_eval_b] (none, 0)).1
        = claimed_selection [tie_eval_a, tie_eval_b]
    ∧ claimed_selection [tie_eval_a, tie_eval_b] = some tie_eval_a := by
  have hwa : weighted_score tie_eval_a.scores = 13 / 20 := by
    norm_num [weighted_score, tie_eval_a]
  have hwb : weighted_score tie_eval_b.scores = 13 / 20 := by
    norm_num [weighted_score, tie_eval_b]
  have hf : score_fold [tie_eval_b] (weighted_score tie_eval_a.scores) = 13 / 20 := by
    rw [score_fold_cons, hwa, hwb]
    simp [score_fold]
  have hcl : claimed_selection [tie_eval_a, tie_eval_b] = some tie_eval_a := by
    simp only [claimed_selection, hf]
    exact List.find?_cons_of_pos _ (by simp [hwa])
  refine ⟨hwa, hwb, ?_, hcl⟩
  exact (claim_C5 [tie_eval_a, tie_eval_b]
    ⟨tie_eval_a, List.mem_cons_self tie_eval_a [tie_eval_b], by rw [hwa]; norm_num⟩).2.1

/-- C6: per axis, score extraction returns the first regex-matched number
divided by 10 exactly when it exceeds 1 and unchanged otherwise, and
defaults the axis to 0.5 when no match is found; the spec examples (a raw 8
normalizes to 0.8, a raw 0.8 stays 0.8) evaluated concretely. -/
theorem claim_C6 (text : String) :
    (∀ v : ℚ, 1 < v → normalize_score v = v / 10)
    ∧ (∀ v : ℚ, ¬ 1 < v → normalize_score v = v)
    ∧ (∀ tok, searchKeyNum "feasibility".toList (pyLower text).toList = some tok →
        (extract_scores text).feasibility = normalize_score (parseDec tok))
    ∧ (searchKeyNum "feasibility".toList (pyLower text).toList = none →
        (extract_scores text).feasibility = 1 / 2)
    ∧ (∀ tok, searchKeyNum "impact".toList (pyLower text).toList = some tok →
        (extract_scores text).impact = normalize_score (parseDec tok))
    ∧ (searchKeyNum "impact".toList (pyLower text).toList = none →
        (extract_scores text).impact = 1 / 2)
    ∧ (∀ tok, searchKeyNum "risk".toList (pyLower text).toList = some tok →
        (extract_scores text).risk = normalize_score (parseDec tok))
    ∧ (searchKeyNum "risk".toList (pyLower text).toList = none →
        (extract_scores text).risk = 1 / 2)
    ∧ extract_scores "Feasibility score: 8. Impact: 0.8. Risk: 3."
        = { feasibility := 8 / 10, impact := 8 / 10, risk := 3 / 10 }
    ∧ extract_scores "no scores here"
        = { feasibility := 1 / 2, impact := 1 / 2, risk := 1 / 2 } := by
  have axis_some : ∀ (key : String) (tok : List Char),
      searchKeyNum key.toList (pyLower text).toList = some tok →
      extract_axis key text = normalize_score (parseDec tok) := by
    intro key tok h
    unfold extract_axis
    rw [h]
  have axis_none : ∀ key : String,
      searchKeyNum key.toList (pyLower text).toList = none →
      extract_axis key text = 1 / 2 := by
    intro key h
    unfold extract_axis
    rw [h]
  refine ⟨fun v hv => if_pos hv, fun v hv => if_neg hv,
    axis_some "feasibility", axis_none "feasibility",
    axis_some "impact", axis_none "impact",
    axis_some "risk", axis_none "risk", ?_, ?_⟩
  · have hf : searchKeyNum "feasibility".toList
        (pyLower "Feasibility score: 8. Impact: 0.8. Risk: 3.").toList = some ['8'] := by
      decide
    have hi : searchKeyNum "impact".toList
        (pyLower "Feasibility score: 8. Impact: 0.8. Risk: 3.").toList
          = some ['0', '.', '8'] := by
      decide
    have hr : searchKeyNum "risk".toList
        (pyLower "Feasibility score: 8. Impact: 0.8. Risk: 3.").toList = some ['3'] := by
      decide
    have pf : parseDec ['8'] = 8 := by
      simp [parseDec, digitsToNat, List.takeWhile, List.dropWhile]
    have pi : parseDec ['0', '.', '8'] = 8 / 10 := by
      simp [parseDec, digitsToNat, List.takeWhile, List.dropWhile]
    have pr : parseDec ['3'] = 3 := by
      simp [parseDec, digitsToNat, List.takeWhile, List.dropWhile]
    unfold extract_scores extract_axis
    rw [hf, hi, hr]
    norm_num [normalize_score, pf, pi, pr]
  · have hf : searchKeyNum "feasibility".toList (pyLower "no scores here").toList
        = none := by decide
    have hi : searchKeyNum "impact".toList (pyLower "no scores here").toList
        = none := by decide
    have hr : searchKeyNum "risk".toList (pyLower "no scores here").toList
        = none := by decide
    unfold extract_scores extract_axis
    rw [hf, hi, hr]

/-- Witness for C6: a text whose feasibility axis matches the raw number 9
(normalized to 0.9) while the impact and risk axes have no match and
default to 0.5. -/
theorem claim_C6_witness :
    (extract_scores "feasibility 9").feasibility = 9 / 10
    ∧ (extract_scores "feasibility 9").impact = 1 / 2
    ∧ (extract_scores "feasibility 9").risk = 1 / 2 := by
  have h := claim_C6 "feasibility 9"
  refine ⟨?_, h.2.2.2.2.2.1 (by decide), h.2.2.2.2.2.2.2.1 (by decide)⟩
  rw [h.2.2.1 ['9'] (by decide)]
  have : parseDec ['9'] = 9 := by
    simp [parseDec, digitsToNat, List.takeWhile, List.dropWhile]
  rw [this, h.1 9 (by norm_num)]

/-! ## Helper lemmas for the two confidence aggregations -/

theorem lookupScore_cons_eq (k : String) (v : ℚ) (rest : List (String × ℚ)) :
    lookupScore k ((k, v) :: rest) = some v := by
  rw [lookupScore, if_pos rfl]

theorem lookupScore_cons_ne (k k2 : String) (v : ℚ) (rest : List (String × ℚ))
    (h : k2 ≠ k) : lookupScore k ((k2, v) :: rest) = lookupScore k rest := by
  rw [lookupScore, if_neg h]

/-- calculate_overall_confidence written through the three lookups (the
weight fold unrolled over the literal weights list). -/
theorem calc_conf_eq (scores : List (String × ℚ)) :
    calculate_overall_confidence scores
      = if scores.isEmpty then 1 / 2
        else
          let acc := optAdd (optAdd (optAdd ((0 : ℚ), (0 : ℚ))
            (3 / 10) (lookupScore "data_processing" scores))
            (4 / 10) (lookupScore "decision_making" scores))
            (3 / 10) (lookupScore "communication" scores)
          if 0 < acc.2 then acc.1 / acc.2 else 1 / 2 := rfl

/-- C7: the Communicator blend is the fixed-weight combination over
whichever of the three category keys are present, renormalized by the weight
present, defaulting to 0.5 with no scores; the executor-level response
confidence is instead the plain unweighted mean (0.5 when empty), and the
two disagree on the spec example. -/
theorem claim_C7 :
    (calculate_overall_confidence [] = 1 / 2 ∧ response_confidence [] = 1 / 2)
    ∧ (∀ a b c : ℚ, calculate_overall_confidence
        [("data_processing", a), ("decision_making", b), ("communication", c)]
          = (3 * a + 4 * b + 3 * c) / 10)
    ∧ (∀ a b : ℚ, calculate_overall_confidence
        [("data_processing", a), ("decision_making", b)] = (3 * a + 4 * b) / 7)
    ∧ (∀ a c : ℚ, calculate_overall_confidence
        [("data_processing", a), ("communication", c)] = (a + c) / 2)
    ∧ (∀ b c : ℚ, calculate_overall_confidence
        [("decision_making", b), ("communication", c)] = (4 * b + 3 * c) / 7)
    ∧ (∀ a : ℚ, calculate_overall_confidence [("data_processing", a)] = a)
    ∧ (∀ b : ℚ, calculate_overall_confidence [("decision_making", b)] = b)
    ∧ (∀ c : ℚ, calculate_overall_confidence [("communication", c)] = c)
    ∧ (∀ scores : List (String × ℚ), scores ≠ [] →
        response_confidence scores
          = ((scores.map Prod.snd).sum) / (scores.length : ℚ))
    ∧ (calculate_overall_confidence
        [("data_processing", 17 / 20), ("decision_making", 7 / 10),
         ("communication", 9 / 10)] = 161 / 200
      ∧ response_confidence
          [("data_processing", 17 / 20), ("decision_making", 7 / 10),
           ("communication", 9 / 10)] = 49 / 60
      ∧ (161 / 200 : ℚ) ≠ 49 / 60) := by
  have hdp_dm : ("data_processing" : String) ≠ "decision_making" := by decide
  have hdp_cm : ("data_processing" : String) ≠ "communication" := by decide
  have hdm_dp : ("decision_making" : String) ≠ "data_processing" := by decide
  have hdm_cm : ("decision_making" : String) ≠ "communication" := by decide
  have hcm_dp : ("communication" : String) ≠ "data_processing" := by decide
  have hcm_dm : ("communication" : String) ≠ "decision_making" := by decide
  have habc : ∀ a b c : ℚ, calculate_overall_confidence
      [("data_processing", a), ("decision_making", b), ("communication", c)]
        = (3 * a + 4 * b + 3 * c) / 10 := by
    intro a b c
    rw [calc_conf_eq, lookupScore_cons_eq,
      lookupScore_cons_ne _ _ _ _ hdp_dm, lookupScore_cons_eq,
      lookupScore_cons_ne _ _ _ _ hdp_cm, lookupScore_cons_ne _ _ _ _ hdm_cm,
      lookupScore_cons_eq]
    norm_num [optAdd]
    ring
  have hmean : ∀ scores : List (String × ℚ), scores ≠ [] →
      response_confidence scores
        = ((scores.map Prod.snd).sum) / (scores.length : ℚ) := by
    intro scores hs
    cases scores with
    | nil => exact absurd rfl hs
    | cons p rest => rfl
  refine ⟨⟨rfl, rfl⟩, habc, ?_, ?_, ?_, ?_, ?_, ?_, hmean, ?_, ?_, by norm_num⟩
  · intro a b
    rw [calc_conf_eq, lookupScore_cons_eq,
      lookupScore_cons_ne _ _ _ _ hdp_dm, lookupScore_cons_eq,
      lookupScore_cons_ne _ _ _ _ hdp_cm, lookupScore_cons_ne _ _ _ _ hdm_cm]
    norm_num [optAdd, lookupScore]
    ring
  · intro a c
    rw [calc_conf_eq, lookupScore_cons_eq,
      lookupScore_cons_ne _ _ _ _ hdp_dm, lookupScore_cons_ne _ _ _ _ hcm_dm,
      lookupScore_cons_ne _ _ _ _ hdp_cm, lookupScore_cons_eq]
    norm_num [optAdd, lookupScore]
    ring
  · intro b c
    rw [calc_conf_eq, lookupScore_cons_ne _ _ _ _ hdm_dp,
      lookupScore_cons_ne _ _ _ _ hcm_dp, lookupScore_cons_eq,
      lookupScore_cons_ne _ _ _ _ hdm_cm, lookupScore_cons_eq]
    norm_num [optAdd, lookupScore]
    ring
  · intro a
    rw [calc_conf_eq, lookupScore_cons_eq, lookupScore_cons_ne _ _ _ _ hdp_dm,
      lookupScore_cons_ne _ _ _ _ hdp_cm]
    norm_num [optAdd, lookupScore]
  · intro b
    rw [calc_conf_eq, lookupScore_cons_ne _ _ _ _ hdm_dp, lookupScore_cons_eq,
      lookupScore_cons_ne _ _ _ _ hdm_cm]
    norm_num [optAdd, lookupScore]
  · intro c
    rw [calc_conf_eq, lookupScore_cons_ne _ _ _ _ hcm_dp,
      lookupScore_cons_ne _ _ _ _ hcm_dm, lookupScore_cons_eq]
    norm_num [optAdd, lookupScore]
  · rw [habc]
    norm_num
  · rw [hmean _ (by simp)]
    norm_num

/-- Witness for C7: the unweighted-mean clause applied at the spec example
mapping. -/
theorem claim_C7_witness :
    ([("data_processing", (17 : ℚ) / 20), ("decision_making", 7 / 10),
      ("communication", 9 / 10)] : List (String × ℚ)) ≠ []
    ∧ response_confidence
        [("data_processing", 17 / 20), ("decision_making", 7 / 10),
         ("communication", 9 / 10)]
      = (((17 : ℚ) / 20 + (7 / 10 + (9 / 10 + 0)))) / 3 := by
  constructor
  · simp
  · have h := (claim_C7.2.2.2.2.2.2.2.2.1)
      [("data_processing", (17 : ℚ) / 20), ("decision_making", 7 / 10),
       ("communication", 9 / 10)] (by simp)
    rw [h]
    norm_num

/-- C8: when the evaluated options yield a winner whose weighted score is
below the fixed 0.7 threshold, make_decision performs exactly one
supplementary web search whose query derives from the first (lowest-index)
evaluation's description — regardless of which option won — and attaches the
result as additional context on the winning option; at or above the
threshold no search is issued and no context is attached. -/
theorem claim_C8 (search llm : String → String) (e0 : Evaluation)
    (rest : List Evaluation) (b : Evaluation) (bs : ℚ)
    (hsel : make_sel (e0 :: rest) (none, 0) = (some b, bs)) :
    (bs < 7 / 10 →
      make_decision search llm (e0 :: rest)
        = Except.ok
            ({ selected_option := some b
               additional_context := some (search ("best practices " ++ e0.description))
               confidence := bs
               reasoning := llm (reasoning_prompt b (e0 :: rest).length)
               alternatives_considered := (e0 :: rest).length
               validation := none },
             ["best practices " ++ e0.description]))
    ∧ (7 / 10 ≤ bs →
      make_decision search llm (e0 :: rest)
        = Except.ok
            ({ selected_option := some b
               additional_context := none
               confidence := bs
               reasoning := llm (reasoning_prompt b (e0 :: rest).length)
               alternatives_considered := (e0 :: rest).length
               validation := none },
             [])) := by
  constructor
  · intro h
    simp only [make_decision, hsel]
    rw [if_pos h]
  · intro h
    simp only [make_decision, hsel]
    rw [if_neg (not_lt.mpr h)]

/-- Witness for C8: a sole option scoring 0.5 triggers the search branch
with its own description as the first evaluation; a sole option scoring 0.9
skips the search. -/
theorem claim_C8_witness :
    ((1 : ℚ) / 2 < 7 / 10
      ∧ make_decision stub_search good_llm [low_eval]
        = Except.ok
            ({ selected_option := some low_eval
               additional_context :=
                 some (stub_search ("best practices " ++ low_eval.description))
               confidence := 1 / 2
               reasoning := good_llm (reasoning_prompt low_eval [low_eval].length)
               alternatives_considered := [low_eval].length
               validation := none },
             ["best practices " ++ low_eval.description]))
    ∧ ((7 : ℚ) / 10 ≤ 9 / 10
      ∧ make_decision stub_search good_llm [hi_eval]
        = Except.ok
            ({ selected_option := some hi_eval
               additional_context := none
               confidence := 9 / 10
               reasoning := good_llm (reasoning_prompt hi_eval [hi_eval].length)
               alternatives_considered := [hi_eval].length
               validation := none },
             [])) := by
  have hwl : weighted_score low_eval.scores = 1 / 2 := by
    norm_num [weighted_score, low_eval]
  have hsl : make_sel [low_eval] (none, 0) = (some low_eval, 1 / 2) := by
    rw [make_sel_cons, if_pos (by rw [hwl]; norm_num), hwl]
    rfl
  have hwh : weighted_score hi_eval.scores = 9 / 10 := by
    norm_num [weighted_score, hi_eval]
  have hsh : make_sel [hi_eval] (none, 0) = (some hi_eval, 9 / 10) := by
    rw [make_sel_cons, if_pos (by rw [hwh]; norm_num), hwh]
    rfl
  constructor
  · exact ⟨by norm_num,
      (claim_C8 stub_search good_llm low_eval [] low_eval (1 / 2) hsl).1 (by norm_num)⟩
  · exact ⟨by norm_num,
      (claim_C8 stub_search good_llm hi_eval [] hi_eval (9 / 10) hsh).2 (by norm_num)⟩

/-- C1 (amended): for every stage and state, if the stage's process raises,
then after execute fails the stage's name has been appended to agent_path
(the pre-step append is not rolled back), the message "name: cause" has been
appended to errors, and the request fails by re-raising the failure — as the
generic AgentException base kind with message "Agent name failed: cause",
not as the stage-specific kind (see the counterexample); no silent recovery
occurs.  The two preservation hypotheses record that no process in the
source touches agent_path or errors itself. -/
theorem claim_C1 (name : String) (proc : AgentState → AgentState × Option Exc)
    (s s2 : AgentState) (e : Exc)
    (hproc : proc { s with agent_path := s.agent_path ++ [name] } = (s2, some e))
    (hpath : s2.agent_path = s.agent_path ++ [name])
    (herr : s2.errors = s.errors) :
    (execute name proc s).2
        = some { kind := ExcKind.agentException
                 msg := "Agent " ++ name ++ " failed: " ++ e.msg }
    ∧ (execute name proc s).1.agent_path = s.agent_path ++ [name]
    ∧ (execute name proc s).1.errors = s.errors ++ [name ++ ": " ++ e.msg] := by
  simp only [execute, hproc]
  refine ⟨trivial, hpath, ?_⟩
  rw [herr]

/-- Counterexample for the error-kind clause of C1 as frozen: a DecisionMaker
process raising the stage-specific DecisionMakingException is re-raised by
execute as the generic base AgentException, not as the stage-specific kind. -/
theorem claim_C1_counterexample :
    (failing_proc (init_state "pick one" "decision_making")).2.map Exc.kind
        = some ExcKind.decisionMakingException
    ∧ ((execute "DecisionMaker" failing_proc
        (init_state "pick one" "decision_making")).2.map Exc.kind
      = some ExcKind.agentException)
    ∧ ExcKind.agentException ≠ ExcKind.decisionMakingException := by
  refine ⟨rfl, rfl, ?_⟩
  decide

/-- Witness for C1: the amended statement applied to a concrete failing
DecisionMaker stage on a fresh state. -/
theorem claim_C1_witness :
    (execute "DecisionMaker" failing_proc (init_state "pick one" "decision_making")).2
        = some { kind := ExcKind.agentException
                 msg := "Agent DecisionMaker failed: boom" }
    ∧ (execute "DecisionMaker" failing_proc
        (init_state "pick one" "decision_making")).1.agent_path = ["DecisionMaker"]
    ∧ (execute "DecisionMaker" failing_proc
        (init_state "pick one" "decision_making")).1.errors
      = ["DecisionMaker: boom"] := by
  have h := claim_C1 "DecisionMaker" failing_proc
    (init_state "pick one" "decision_making")
    { init_state "pick one" "decision_making" with
        agent_path := (init_state "pick one" "decision_making").agent_path
          ++ ["DecisionMaker"] }
    { kind := ExcKind.decisionMakingException, msg := "boom" }
    rfl rfl rfl
  exact ⟨h.1, h.2.1, h.2.2⟩

/-- C10: a list of successfully parsed evaluations in which every option
scores (feasibility 0, impact 0, risk 1) has weighted score exactly 0; the
selection loop then selects no option, the below-threshold branch
dereferences the absent selection, and the stage raises a decision-making
failure instead of producing a decision. -/
theorem claim_C10 :
    extract_scores "feasibility 0 impact 0 risk 1"
      = { feasibility := 0, impact := 0, risk := 1 }
    ∧ weighted_score parsed_zero_eval.scores = 0
    ∧ make_sel [parsed_zero_eval] (none, 0) = (none, 0)
    ∧ make_decision stub_search zero_llm [parsed_zero_eval]
        = Except.error PyErr.typeError
    ∧ (decision_maker_process stub_search zero_llm dm_state).2
        = some { kind := ExcKind.decisionMakingException
                 msg := "Decision making failed: NoneType object does not support item assignment" } := by
  have hscores : extract_scores "feasibility 0 impact 0 risk 1"
      = { feasibility := 0, impact := 0, risk := 1 } := by
    have hf : searchKeyNum "feasibility".toList
        (pyLower "feasibility 0 impact 0 risk 1").toList = some ['0'] := by decide
    have hi : searchKeyNum "impact".toList
        (pyLower "feasibility 0 impact 0 risk 1").toList = some ['0'] := by decide
    have hr : searchKeyNum "risk".toList
        (pyLower "feasibility 0 impact 0 risk 1").toList = some ['1'] := by decide
    have p0 : parseDec ['0'] = 0 := by
      simp [parseDec, digitsToNat, List.takeWhile, List.dropWhile]
    have p1 : parseDec ['1'] = 1 := by
      simp [parseDec, digitsToNat, List.takeWhile, List.dropWhile]
    unfold extract_scores extract_axis
    rw [hf, hi, hr]
    norm_num [normalize_score, p0, p1]
  have hw : weighted_score parsed_zero_eval.scores = 0 := by
    norm_num [weighted_score, parsed_zero_eval]
  have hsel : make_sel [parsed_zero_eval] (none, 0) = (none, 0) := by
    rw [make_sel_cons, hw, if_neg (lt_irrefl (0 : ℚ))]
    rfl
  have hmd : make_decision stub_search zero_llm [parsed_zero_eval]
      = Except.error PyErr.typeError := by
    simp only [make_decision, hsel]
    rw [if_pos (by norm_num)]
  have heval : (number_options (option_chunks "feasibility 0 impact 0 risk 1")).map
      (evaluate_option zero_llm dm_pd.analysis) = [parsed_zero_eval] := by
    have hchunks : number_options (option_chunks "feasibility 0 impact 0 risk 1")
        = [("option_1", "feasibility 0 impact 0 risk 1")] := by decide
    rw [hchunks]
    simp only [List.map, evaluate_option, zero_llm]
    rw [hscores]
    rfl
  refine ⟨hscores, hw, hsel, hmd, ?_⟩
  simp only [decision_maker_process,
    show dm_state.processed_data = some dm_pd from rfl, zero_llm, heval, hmd]
  rfl

/-! ## Helper lemmas for the graph run -/

theorem run_from_succ (llm search : String → String) (fuel : Nat) (n : Node)
    (s : AgentState) :
    run_from llm search (fuel + 1) n s
      = if n = Node.finish then Except.ok s
        else
          match step llm search n s with
          | ((_, some e), _) => Except.error e
          | ((s2, none), n2) => run_from llm search fuel n2 s2 := rfl

theorem execute_no_err_at (name : String) (proc : AgentState → AgentState × Option Exc)
    (s : AgentState)
    (h : (proc { s with agent_path := s.agent_path ++ [name] }).2 = none) :
    execute name proc s
      = ((proc { s with agent_path := s.agent_path ++ [name] }).1, none) := by
  cases hp : proc { s with agent_path := s.agent_path ++ [name] } with
  | mk s2 eo =>
    rw [hp] at h
    cases eo with
    | none => simp [execute, hp]
    | some e => exact absurd h (by simp)

theorem execute_no_err (name : String) (proc : AgentState → AgentState × Option Exc)
    (s : AgentState) (h : ∀ t, (proc t).2 = none) :
    execute name proc s
      = ((proc { s with agent_path := s.agent_path ++ [name] }).1, none) :=
  execute_no_err_at name proc s (h _)

theorem execute_ok_path (name : String) (proc : AgentState → AgentState × Option Exc)
    (s s3 : AgentState)
    (hpp : ∀ t, (proc t).1.agent_path = t.agent_path)
    (hex : execute name proc s = (s3, none)) :
    s3.agent_path = s.agent_path ++ [name] := by
  cases hp : proc { s with agent_path := s.agent_path ++ [name] } with
  | mk sx eo =>
    cases eo with
    | none =>
      simp only [execute, hp] at hex
      have hp1 := hpp { s with agent_path := s.agent_path ++ [name] }
      rw [hp] at hp1
      obtain rfl : sx = s3 := by simpa using congrArg Prod.fst hex
      simpa using hp1
    | some e =>
      simp only [execute, hp] at hex
      simp at hex

theorem orch_no_err (llm : String → String) (t : AgentState) :
    (orchestrator_process llm t).2 = none := rfl

theorem dp_no_err (llm : String → String) (t : AgentState) :
    (data_processor_process llm t).2 = none := rfl

theorem comm_no_err (llm : String → String) (t : AgentState) :
    (communicator_process llm t).2 = none := rfl

theorem comm_path (llm : String → String) (t : AgentState) :
    (communicator_process llm t).1.agent_path = t.agent_path := rfl

theorem dp_facts (llm : String → String) (t : AgentState) :
    (data_processor_process llm t).1.agent_path = t.agent_path
    ∧ (data_processor_process llm t).1.task_type = t.task_type
    ∧ (data_processor_process llm t).1.query = t.query :=
  ⟨rfl, rfl, rfl⟩

theorem dm_path (search llm : String → String) (t : AgentState) :
    (decision_maker_process search llm t).1.agent_path = t.agent_path := by
  simp only [decision_maker_process]
  split
  · rfl
  · split
    · rfl
    · split
      · rfl
      · rfl

/-- The Orchestrator on a state whose task type is already decision_making:
no reclassification, path and query untouched, routing decision stored. -/
theorem orch_dm_facts (llm : String → String) (t : AgentState)
    (htt : t.task_type = "decision_making") :
    (orchestrator_process llm t).1.agent_path = t.agent_path
    ∧ (orchestrator_process llm t).1.task_type = "decision_making"
    ∧ (orchestrator_process llm t).1.query = t.query
    ∧ (orchestrator_process llm t).1.routing_decision
        = some (determine_routing t.query "decision_making") := by
  have hng : ¬ (t.task_type = "general") := by
    rw [htt]
    decide
  simp only [orchestrator_process]
  rw [if_neg hng]
  exact ⟨rfl, htt, rfl, by rw [htt]⟩

theorem parse_node_dp : parse_node "data_processor" = Node.data_processor := rfl

theorem parse_node_dm : parse_node "decision_maker" = Node.decision_maker := by
  rw [parse_node, if_neg (by decide), if_pos rfl]

theorem run_comm (llm search : String → String) (fuel : Nat) (s : AgentState) :
    run_from llm search (fuel + 2) Node.communicator s
      = Except.ok ((communicator_process llm
          { s with agent_path := s.agent_path ++ ["Communicator"] }).1) := by
  rw [run_from_succ, if_neg (by decide)]
  simp only [step, execute_no_err "Communicator" (communicator_process llm) s
    (comm_no_err llm)]
  rw [run_from_succ, if_pos rfl]

theorem run_dm_ok (llm search : String → String) (fuel : Nat) (s s3 : AgentState)
    (hex : execute "DecisionMaker" (decision_maker_process search llm) s = (s3, none)) :
    run_from llm search (fuel + 3) Node.decision_maker s
      = Except.ok ((communicator_process llm
          { s3 with agent_path := s3.agent_path ++ ["Communicator"] }).1) := by
  rw [run_from_succ, if_neg (by decide)]
  simp only [step, hex]
  exact run_comm llm search fuel s3

theorem run_dm_err (llm search : String → String) (fuel : Nat) (s s3 : AgentState)
    (e : Exc)
    (hex : execute "DecisionMaker" (decision_maker_process search llm) s
      = (s3, some e)) :
    run_from llm search (fuel + 3) Node.decision_maker s = Except.error e := by
  rw [run_from_succ, if_neg (by decide)]
  simp only [step, hex]

/-- Every decision_making run deterministically reaches the DecisionMaker
node after the Orchestrator and the DataProcessor have both run and left
their names on the path and a processed_data record in place. -/
theorem run_reaches_dm (llm search : String → String) (q : String) :
    ∃ s2 : AgentState,
      run_graph llm search (init_state q "decision_making")
        = run_from llm search 23 Node.decision_maker s2
      ∧ s2.agent_path = ["Orchestrator", "DataProcessor"]
      ∧ ∃ pd, s2.processed_data = some pd := by
  have hpp : ∀ qq : String, (determine_routing qq "decision_making").primary_path
      = ["data_processor", "decision_maker", "communicator"] := fun qq => by
    rw [determine_routing_primary, if_neg (by decide), if_pos rfl]
  -- stage 1: orchestrator
  have hfacts1 := orch_dm_facts llm
    { init_state q "decision_making" with
        agent_path := (init_state q "decision_making").agent_path ++ ["Orchestrator"] }
    rfl
  generalize hs1 : (orchestrator_process llm
    { init_state q "decision_making" with
        agent_path := (init_state q "decision_making").agent_path
          ++ ["Orchestrator"] }).1 = s1 at hfacts1
  obtain ⟨h1path, h1tt, h1q, h1rt⟩ := hfacts1
  have h1path2 : s1.agent_path = ["Orchestrator"] := by
    rw [h1path]
    simp [init_state]
  have h1rt2 : s1.routing_decision = some (determine_routing q "decision_making") := by
    rw [h1rt]
    simp [init_state]
  have hroute1 : route_from_orchestrator s1 = "data_processor" := by
    unfold route_from_orchestrator
    rw [h1rt2]
    simp [hpp q]
  have hstep1 : run_graph llm search (init_state q "decision_making")
      = run_from llm search 24 Node.data_processor s1 := by
    unfold run_graph
    rw [show (25 : Nat) = 24 + 1 from rfl, run_from_succ, if_neg (by decide)]
    simp only [step,
      execute_no_err "Orchestrator" (orchestrator_process llm)
        (init_state q "decision_making") (orch_no_err llm),
      hs1, hroute1, parse_node_dp]
  -- stage 2: data processor
  have hfacts2 := dp_facts llm { s1 with agent_path := s1.agent_path ++ ["DataProcessor"] }
  generalize hs2 : (data_processor_process llm
    { s1 with agent_path := s1.agent_path ++ ["DataProcessor"] }).1 = s2 at hfacts2
  obtain ⟨h2path, h2tt, h2q⟩ := hfacts2
  have h2path2 : s2.agent_path = ["Orchestrator", "DataProcessor"] := by
    rw [h2path]
    simp [h1path2]
  have h2tt2 : s2.task_type = "decision_making" := by
    rw [h2tt]
    simpa using h1tt
  have hroute2 : route_from_data_processor s2 = "decision_maker" := by
    unfold route_from_data_processor
    rw [h2tt2]
    simp
  have hstep2 : run_graph llm search (init_state q "decision_making")
      = run_from llm search 23 Node.decision_maker s2 := by
    rw [hstep1, show (24 : Nat) = 23 + 1 from rfl, run_from_succ, if_neg (by decide)]
    simp only [step,
      execute_no_err "DataProcessor" (data_processor_process llm) s1 (dp_no_err llm),
      hs2, hroute2, parse_node_dm]
  refine ⟨s2, hstep2, h2path2, ?_⟩
  rw [← hs2]
  exact ⟨_, rfl⟩

/-- C9: after a complete run with task type decision_making, agent_path
contains exactly 4 entries — the Orchestrator, DataProcessor, DecisionMaker
and Communicator stage names in execution order, each appended exactly once
by its stage's pre-step. -/
theorem claim_C9 (llm search : String → String) (q : String)
    (h : graph_ok (run_graph llm search (init_state q "decision_making")) = true) :
    ok_path (run_graph llm search (init_state q "decision_making"))
      = ["Orchestrator", "DataProcessor", "DecisionMaker", "Communicator"] := by
  obtain ⟨s2, hstep2, h2path2, -⟩ := run_reaches_dm llm search q
  rcases hex : execute "DecisionMaker" (decision_maker_process search llm) s2
    with ⟨s3, eo⟩
  cases eo with
  | some e =>
    have hfail : run_graph llm search (init_state q "decision_making")
        = Except.error e := by
      rw [hstep2, show (23 : Nat) = 20 + 3 from rfl]
      exact run_dm_err llm search 20 s2 s3 e hex
    rw [hfail] at h
    simp [graph_ok] at h
  | none =>
    have hrun : run_graph llm search (init_state q "decision_making")
        = Except.ok ((communicator_process llm
            { s3 with agent_path := s3.agent_path ++ ["Communicator"] }).1) := by
      rw [hstep2, show (23 : Nat) = 20 + 3 from rfl]
      exact run_dm_ok llm search 20 s2 s3 hex
    have h3path : s3.agent_path = ["Orchestrator", "DataProcessor", "DecisionMaker"] := by
      have hp3 := execute_ok_path "DecisionMaker" (decision_maker_process search llm)
        s2 s3 (dm_path search llm) hex
      rw [hp3, h2path2]
      rfl
    rw [hrun]
    simp only [ok_path]
    rw [comm_path]
    simp [h3path]

/-! ## A concrete successful decision_making run -/

theorem good_scores : extract_scores "feasibility 9 impact 9 risk 0"
    = { feasibility := 9 / 10, impact := 9 / 10, risk := 0 } := by
  have hf : searchKeyNum "feasibility".toList
      (pyLower "feasibility 9 impact 9 risk 0").toList = some ['9'] := by decide
  have hi : searchKeyNum "impact".toList
      (pyLower "feasibility 9 impact 9 risk 0").toList = some ['9'] := by decide
  have hr : searchKeyNum "risk".toList
      (pyLower "feasibility 9 impact 9 risk 0").toList = some ['0'] := by decide
  have p9 : parseDec ['9'] = 9 := by
    simp [parseDec, digitsToNat, List.takeWhile, List.dropWhile]
  have p0 : parseDec ['0'] = 0 := by
    simp [parseDec, digitsToNat, List.takeWhile, List.dropWhile]
  unfold extract_scores extract_axis
  rw [hf, hi, hr]
  norm_num [normalize_score, p9, p0]

theorem good_evals (A : String) :
    (number_options (option_chunks "feasibility 9 impact 9 risk 0")).map
      (evaluate_option good_llm A) = [good_eval] := by
  have hchunks : number_options (option_chunks "feasibility 9 impact 9 risk 0")
      = [("option_1", "feasibility 9 impact 9 risk 0")] := by decide
  rw [hchunks]
  simp only [List.map, evaluate_option, good_llm]
  rw [good_scores]
  rfl

theorem good_sel : make_sel [good_eval] (none, 0) = (some good_eval, 93 / 100) := by
  have hw : weighted_score good_eval.scores = 93 / 100 := by
    norm_num [weighted_score, good_eval]
  rw [make_sel_cons, if_pos (by rw [hw]; norm_num), hw]
  rfl

theorem good_md : make_decision stub_search good_llm [good_eval]
    = Except.ok (good_decision, []) := by
  simp only [make_decision, good_sel]
  rw [if_neg (by norm_num)]
  rfl

theorem good_validate (qq : String) :
    validate_decision stub_search good_llm qq good_decision
      = Except.ok
          { good_decision with validation := some "feasibility 9 impact 9 risk 0" } := rfl

/-- With the good_llm stub, the DecisionMaker succeeds on any state that
carries a processed_data record. -/
theorem dm_good_no_err (t : AgentState) (pd : ProcessedData)
    (hpd : t.processed_data = some pd) :
    (decision_maker_process stub_search good_llm t).2 = none := by
  simp only [decision_maker_process, hpd, good_llm, good_evals, good_md, good_validate]

/-- Witness for C9: a complete decision_making run with concrete model and
search stubs succeeds, and the theorem then gives the four-stage path. -/
theorem claim_C9_witness :
    graph_ok (run_graph good_llm stub_search (init_state "q" "decision_making")) = true
    ∧ ok_path (run_graph good_llm stub_search (init_state "q" "decision_making"))
        = ["Orchestrator", "DataProcessor", "DecisionMaker", "Communicator"] := by
  have hok : graph_ok (run_graph good_llm stub_search (init_state "q" "decision_making"))
      = true := by
    obtain ⟨s2, hstep2, -, ⟨pd, hpd⟩⟩ := run_reaches_dm good_llm stub_search "q"
    have hdm : (decision_maker_process stub_search good_llm
        { s2 with agent_path := s2.agent_path ++ ["DecisionMaker"] }).2 = none :=
      dm_good_no_err _ pd (by simpa using hpd)
    have hex := execute_no_err_at "DecisionMaker"
      (decision_maker_process stub_search good_llm) s2 hdm
    have hrun := run_dm_ok good_llm stub_search 20 s2 _ hex
    rw [hstep2, show (23 : Nat) = 20 + 3 from rfl, hrun]
    rfl
  exact ⟨hok, claim_C9 good_llm stub_search "q" hok⟩

end MultiAgent
